import Mathlib

/-!
Shallow embedding of `src/new_cadastr_kvartal.py` (cadastral-block land
parcel scanner).  Pure data is modelled directly; the HTTP layer is
modelled as a function from parcel-identifier strings to an abstract
fetch outcome; the scan loop is fuel-based structural recursion (the
fuel supplied by `runScan` always covers the identifier range).
-/

namespace Cadastr

/-- Fields of `feature['properties']['options']` consumed by
`parse_parcel_data`.  Each is `Option String`: `none` models an absent
JSON key. -/
structure Options where
  cad_num : Option String := none
  readable_address : Option String := none
  area : Option String := none
  specified_area : Option String := none
  land_record_category_type : Option String := none
  permitted_use_established_by_document : Option String := none
  status : Option String := none
  cost_value : Option String := none
  cost_determination_date : Option String := none
  land_record_reg_date : Option String := none
  ownership_type : Option String := none
  right_type : Option String := none
deriving DecidableEq

/-- One element of `data['data']['features']`: the `categoryName`
property, the `options` mapping, and the already-stringified
`geometry.coordinates` (the Python code applies `str(...)` to it). -/
structure Feature where
  categoryName : Option String := none
  options : Options := {}
  coordinates : String := ""
deriving DecidableEq

/-- The JSON payload of a 200 response, reduced to the parts
`parse_parcel_data` reads: `data['data']['features']`. -/
structure Payload where
  features : List Feature := []
deriving DecidableEq

/-- The dictionary built by `parse_parcel_data` for a found parcel
(field names transliterated from the Russian keys in the source). -/
structure ParcelRecord where
  cad_num : String
  address : String
  area : String
  land_category : String
  permitted_use : String
  status : String
  cost_value : String
  cost_date : String
  reg_date : String
  ownership_type : String
  right_type : String
  coordinates : String
  data_source : String
  check_date : String
deriving DecidableEq

/-- Mutable state of a `LandParcelScanner` run: the fields of `self`
that the scan loop reads and writes. -/
@[ext] structure ScanState where
  land_parcels : List ParcelRecord
  found_count : Nat
  not_found_streak : Nat
  current_num : Nat
deriving DecidableEq

/-- Python `__init__`: fresh scanner state for a range starting at `startNum`
(`land_parcels = []`, `found_count = 0`, `not_found_streak = 0`,
`current_num = start`). -/
def initState (startNum : Nat) : ScanState :=
  { land_parcels := [], found_count := 0, not_found_streak := 0, current_num := startNum }

/-- Outcome of the HTTP GET inside `fetch_parcel_data`: either an
exception in the request itself, or a response with a status code and a
body.  `body = none` models a body on which `response.json()` raises
(malformed payload); the exception is caught by the surrounding
`try`. -/
inductive FetchOutcome where
  | exn : FetchOutcome
  | ok : Nat → Option Payload → FetchOutcome
deriving DecidableEq

/-- Model of `fetch_parcel_data`: 200 with a parseable body returns the payload;
404, any other status, a malformed 200 body, and a request exception all
return `None`. -/
def fetch_parcel_data (o : FetchOutcome) : Option Payload :=
  match o with
  | FetchOutcome.exn => none
  | FetchOutcome.ok status body =>
    if status = 200 then
      match body with
      | some p => some p
      | none => none
    else if status = 404 then none
    else none

/-- Python `options.get(key) or default`: an absent key or an empty
string falls through to the default. -/
def pyOrDefault (v : Option String) (d : String) : String :=
  match v with
  | none => d
  | some s => if s = "" then d else s

/-- The first feature whose `properties.categoryName` equals the
registered-land-parcel category, as found by the `for` loop in
`parse_parcel_data`. -/
def matchingFeature (p : Payload) : Option Feature :=
  p.features.find? (fun f => f.categoryName = some "Земельные участки ЕГРН")

/-- Model of `parse_parcel_data`: extract a `ParcelRecord` from the first feature
categorised as a registered land parcel, or `None` when no feature
matches.  `now` stands for `datetime.now().strftime(...)`, an input of
the embedding. -/
def parse_parcel_data (now : String) (data : Payload) (parcel_num : String) :
    Option ParcelRecord :=
  match matchingFeature data with
  | none => none
  | some f =>
    some
      { cad_num := f.options.cad_num.getD parcel_num
        address := f.options.readable_address.getD "Не указан"
        area := pyOrDefault f.options.area (f.options.specified_area.getD "")
        land_category := f.options.land_record_category_type.getD ""
        permitted_use := f.options.permitted_use_established_by_document.getD ""
        status := f.options.status.getD ""
        cost_value := f.options.cost_value.getD ""
        cost_date := f.options.cost_determination_date.getD ""
        reg_date := f.options.land_record_reg_date.getD ""
        ownership_type := f.options.ownership_type.getD ""
        right_type := f.options.right_type.getD ""
        coordinates := f.coordinates
        data_source := "НСПД РФ"
        check_date := now }

/-- Fully-qualified parcel identifier: the block number, a colon, and
the current number (the f-string on line 184 of the source). -/
def parcelId (kvartal : String) (n : Nat) : String :=
  kvartal ++ ":" ++ toString n

/-- The checkpoint document written by `save_progress` (the fields read
back by `load_progress` plus the stats it ignores; the formatted
completion percentage and the timestamp are presentation-only strings
and are not modelled). -/
structure Checkpoint where
  kvartal : String
  start_num : Nat
  end_num : Nat
  last_checked : Nat
  total_checked : Int
  found_count : Nat
  land_parcels : List ParcelRecord
deriving DecidableEq

/-- Model of `save_progress`: serialise the scanner's state into the checkpoint
document (`last_checked = self.current_num`). -/
def save_progress (kvartal : String) (startNum endNum : Nat) (s : ScanState) : Checkpoint :=
  { kvartal := kvartal
    start_num := startNum
    end_num := endNum
    last_checked := s.current_num
    total_checked := (s.current_num : Int) - (startNum : Int)
    found_count := s.found_count
    land_parcels := s.land_parcels }

/-- Model of `load_progress` on an existing checkpoint: `land_parcels` comes from
the document, `found_count` is recomputed as `len(land_parcels)`,
`current_num` becomes `last_checked + 1`; every other field of the
scanner (notably `not_found_streak`) is left as it was. -/
def load_progress (s : ScanState) (cp : Checkpoint) : ScanState :=
  { s with
      land_parcels := cp.land_parcels
      found_count := cp.land_parcels.length
      current_num := cp.last_checked + 1 }

/-- One iteration body of the `while` loop in `scan` (lines 184-196):
fetch, classify, and update `land_parcels` / `found_count` /
`not_found_streak`; `current_num` is advanced later by the loop. -/
def scanStep (lk : String → FetchOutcome) (now kvartal : String) (s : ScanState) : ScanState :=
  let pid := parcelId kvartal s.current_num
  match fetch_parcel_data (lk pid) with
  | none => { s with not_found_streak := s.not_found_streak + 1 }
  | some data =>
    match parse_parcel_data now data pid with
    | some info =>
        { s with
            land_parcels := s.land_parcels ++ [info]
            found_count := s.found_count + 1
            not_found_streak := 0 }
    | none => s

/-- Per-iteration log entry: the identifier probed, the state right
after the probe (before `current_num += 1`), and whether the periodic
`save_progress` on line 199-200 fired. -/
structure Iter where
  probed : Nat
  after : ScanState
  saved : Bool
deriving DecidableEq

/-- The `while self.current_num <= self.end` loop of `scan`, as
fuel-based recursion.  Each iteration: run `scanStep`, record whether
the periodic checkpoint condition
`found_count > 0 and (found_count % 10 == 0 or current_num % 50 == 0)`
fired, `break` when `not_found_streak >= 100` (before the increment of
`current_num`), otherwise advance `current_num` and continue. -/
def scanLoop (lk : String → FetchOutcome) (now kvartal : String) (endNum : Nat) :
    Nat → ScanState → ScanState × List Iter
  | 0, s => (s, [])
  | fuel + 1, s =>
    if s.current_num ≤ endNum then
      let s1 := scanStep lk now kvartal s
      let doSave : Bool :=
        decide (0 < s1.found_count ∧ (s1.found_count % 10 = 0 ∨ s1.current_num % 50 = 0))
      let it : Iter := { probed := s.current_num, after := s1, saved := doSave }
      if 100 ≤ s1.not_found_streak then
        (s1, [it])
      else
        let rest := scanLoop lk now kvartal endNum fuel
          { s1 with current_num := s1.current_num + 1 }
        (rest.1, it :: rest.2)
    else
      (s, [])

/-- Return value of `scan`: the records when non-empty, else `None` —
an empty record list yields `None`, not an empty table. -/
def scanReturn (s : ScanState) : Option (List ParcelRecord) :=
  if s.land_parcels.isEmpty then none else some s.land_parcels

/-- Everything observable about one `scan()` call on the normal
(non-fatal) path: the return value, the final scanner state, the
per-iteration log, and the final `save_progress` checkpoint of
line 212. -/
structure ScanResult where
  retval : Option (List ParcelRecord)
  final : ScanState
  iters : List Iter
  finalCp : Checkpoint
deriving DecidableEq

/-- Model of `scan()` on the normal path: run the loop over the remaining range
(the fuel `endNum + 1 - current_num` covers every possible iteration),
then perform the unconditional final `save_progress` and compute the
return value. -/
def runScan (lk : String → FetchOutcome) (now kvartal : String)
    (startNum endNum : Nat) (s : ScanState) : ScanResult :=
  let r := scanLoop lk now kvartal endNum (endNum + 1 - s.current_num) s
  { retval := scanReturn r.1
    final := r.1
    iters := r.2
    finalCp := save_progress kvartal startNum endNum r.1 }

/-- The `except` branch of `scan` (lines 227-230): whatever state `sA`
the scanner was in when the unexpected exception escaped the loop, it
performs one `save_progress` and returns `None`. -/
def runScanFatal (kvartal : String) (startNum endNum : Nat) (sA : ScanState) :
    Option (List ParcelRecord) × Checkpoint :=
  (none, save_progress kvartal startNum endNum sA)

/-- The record (if any) that probing identifier `n` contributes:
`parse_parcel_data` applied to a successful fetch. -/
def probeRec (lk : String → FetchOutcome) (now kvartal : String) (n : Nat) :
    Option ParcelRecord :=
  (fetch_parcel_data (lk (parcelId kvartal n))).bind
    (fun d => parse_parcel_data now d (parcelId kvartal n))

/-- How one probe of identifier `n` transforms `not_found_streak`:
`+1` on a failed fetch, reset to `0` on a parsed record, unchanged when
the payload has no matching feature. -/
def stepStreak (lk : String → FetchOutcome) (now kvartal : String) (n sigma : Nat) : Nat :=
  match fetch_parcel_data (lk (parcelId kvartal n)) with
  | none => sigma + 1
  | some d =>
    match parse_parcel_data now d (parcelId kvartal n) with
    | some _ => 0
    | none => sigma

/-- Records contributed by probing the `len` identifiers
`c, c+1, …, c+len-1` in order. -/
def recsFrom (lk : String → FetchOutcome) (now kvartal : String) : Nat → Nat → List ParcelRecord
  | _, 0 => []
  | c, len + 1 =>
    (probeRec lk now kvartal c).toList ++ recsFrom lk now kvartal (c + 1) len

/-- The value of `not_found_streak` after probing the `len` identifiers
`c, c+1, …, c+len-1`, starting from streak `sigma`. -/
def streakFrom (lk : String → FetchOutcome) (now kvartal : String) : Nat → Nat → Nat → Nat
  | sigma, _, 0 => sigma
  | sigma, c, len + 1 =>
    streakFrom lk now kvartal (stepStreak lk now kvartal c sigma) (c + 1) len

/-- Closed form of one loop body: records are extended by `probeRec`,
`found_count` by its length, the streak follows `stepStreak`, and
`current_num` is untouched (the loop advances it separately). -/
theorem scanStep_eq (lk : String → FetchOutcome) (now kvartal : String) (s : ScanState) :
    scanStep lk now kvartal s =
      { land_parcels := s.land_parcels ++ (probeRec lk now kvartal s.current_num).toList
        found_count := s.found_count + (probeRec lk now kvartal s.current_num).toList.length
        not_found_streak := stepStreak lk now kvartal s.current_num s.not_found_streak
        current_num := s.current_num } := by
  unfold scanStep probeRec stepStreak
  cases hf : fetch_parcel_data (lk (parcelId kvartal s.current_num)) with
  | none => simp [hf]
  | some d =>
    cases hp : parse_parcel_data now d (parcelId kvartal s.current_num) with
    | none => simp [hf, hp]
    | some info => simp [hf, hp]

/-- Projection of `scanStep_eq`: the records after one probe. -/
theorem scanStep_land (lk : String → FetchOutcome) (now kvartal : String) (s : ScanState) :
    (scanStep lk now kvartal s).land_parcels =
      s.land_parcels ++ (probeRec lk now kvartal s.current_num).toList := by
  rw [scanStep_eq]

/-- Projection of `scanStep_eq`: the found counter after one probe. -/
theorem scanStep_found (lk : String → FetchOutcome) (now kvartal : String) (s : ScanState) :
    (scanStep lk now kvartal s).found_count =
      s.found_count + (probeRec lk now kvartal s.current_num).toList.length := by
  rw [scanStep_eq]

/-- Projection of `scanStep_eq`: the streak after one probe. -/
theorem scanStep_streak (lk : String → FetchOutcome) (now kvartal : String) (s : ScanState) :
    (scanStep lk now kvartal s).not_found_streak =
      stepStreak lk now kvartal s.current_num s.not_found_streak := by
  rw [scanStep_eq]

/-- Projection of `scanStep_eq`: one probe never moves `current_num`. -/
theorem scanStep_current (lk : String → FetchOutcome) (now kvartal : String) (s : ScanState) :
    (scanStep lk now kvartal s).current_num = s.current_num := by
  rw [scanStep_eq]

/-- A failed fetch only increments the streak. -/
theorem scanStep_miss (lk : String → FetchOutcome) (now kvartal : String) (s : ScanState)
    (h : fetch_parcel_data (lk (parcelId kvartal s.current_num)) = none) :
    scanStep lk now kvartal s = { s with not_found_streak := s.not_found_streak + 1 } := by
  unfold scanStep
  simp only [h]

/-- Unfolding lemma: probing one more identifier first. -/
theorem recsFrom_succ (lk : String → FetchOutcome) (now kvartal : String) (c len : Nat) :
    recsFrom lk now kvartal c (len + 1) =
      (probeRec lk now kvartal c).toList ++ recsFrom lk now kvartal (c + 1) len := rfl

/-- Unfolding lemma: probing one more identifier first. -/
theorem streakFrom_succ (lk : String → FetchOutcome) (now kvartal : String)
    (sigma c len : Nat) :
    streakFrom lk now kvartal sigma c (len + 1) =
      streakFrom lk now kvartal (stepStreak lk now kvartal c sigma) (c + 1) len := rfl

/-- Splitting a probe range: the records of `a + b` probes are the
records of the first `a` followed by those of the remaining `b`. -/
theorem recsFrom_add (lk : String → FetchOutcome) (now kvartal : String) :
    ∀ a c b, recsFrom lk now kvartal c (a + b) =
      recsFrom lk now kvartal c a ++ recsFrom lk now kvartal (c + a) b := by
  intro a
  induction a with
  | zero => intro c b; simp [recsFrom]
  | succ a ih =>
    intro c b
    have h1 : a + 1 + b = (a + b) + 1 := by omega
    rw [h1, recsFrom_succ, recsFrom_succ, ih (c + 1) b, List.append_assoc]
    have h2 : c + 1 + a = c + (a + 1) := by omega
    rw [h2]

/-- Splitting a probe range for the streak: the streak after `a + b`
probes is the streak after the last `b`, started from the streak after
the first `a`. -/
theorem streakFrom_add (lk : String → FetchOutcome) (now kvartal : String) :
    ∀ a sigma c b, streakFrom lk now kvartal sigma c (a + b) =
      streakFrom lk now kvartal (streakFrom lk now kvartal sigma c a) (c + a) b := by
  intro a
  induction a with
  | zero => intro sigma c b; simp [streakFrom]
  | succ a ih =>
    intro sigma c b
    have h1 : a + 1 + b = (a + b) + 1 := by omega
    rw [h1, streakFrom_succ, streakFrom_succ, ih]
    have h2 : c + 1 + a = c + (a + 1) := by omega
    rw [h2]

/-- One probe is monotone in the incoming streak value. -/
theorem stepStreak_mono (lk : String → FetchOutcome) (now kvartal : String) (n : Nat)
    {sigma sigma' : Nat} (h : sigma ≤ sigma') :
    stepStreak lk now kvartal n sigma ≤ stepStreak lk now kvartal n sigma' := by
  unfold stepStreak
  cases hf : fetch_parcel_data (lk (parcelId kvartal n)) with
  | none => simp; omega
  | some d =>
    cases hp : parse_parcel_data now d (parcelId kvartal n) with
    | none => simpa [hp] using h
    | some _ => simp [hp]

/-- The streak after any probe sequence is monotone in the starting
streak value. -/
theorem streakFrom_mono (lk : String → FetchOutcome) (now kvartal : String) :
    ∀ len c {sigma sigma' : Nat}, sigma ≤ sigma' →
      streakFrom lk now kvartal sigma c len ≤ streakFrom lk now kvartal sigma' c len := by
  intro len
  induction len with
  | zero => intro c sigma sigma' h; exact h
  | succ len ih =>
    intro c sigma sigma' h
    rw [streakFrom_succ, streakFrom_succ]
    exact ih (c + 1) (stepStreak_mono lk now kvartal c h)

/-- Closed form of the scan loop when the streak never reaches the
early-stop ceiling: every identifier up to `endNum` is probed, the final
records are the initial ones followed by `recsFrom` over the range,
`found_count` grows by exactly the number of new records, and the loop
exits with `current_num = endNum + 1`. -/
theorem scanLoop_noStop (lk : String → FetchOutcome) (now kvartal : String) (endNum : Nat) :
    ∀ fuel s, s.current_num + fuel = endNum + 1 →
      (∀ i, i < fuel →
        streakFrom lk now kvartal s.not_found_streak s.current_num (i + 1) < 100) →
      (scanLoop lk now kvartal endNum fuel s).1 =
        { land_parcels := s.land_parcels ++ recsFrom lk now kvartal s.current_num fuel
          found_count :=
            s.found_count + (recsFrom lk now kvartal s.current_num fuel).length
          not_found_streak :=
            streakFrom lk now kvartal s.not_found_streak s.current_num fuel
          current_num := s.current_num + fuel } := by
  intro fuel
  induction fuel with
  | zero =>
    intro s _ _
    simp [scanLoop, recsFrom, streakFrom]
  | succ fuel ih =>
    intro s hrange hstreak
    have hle : s.current_num ≤ endNum := by omega
    have h0 : stepStreak lk now kvartal s.current_num s.not_found_streak < 100 := by
      have h1 := hstreak 0 (Nat.succ_pos fuel)
      rw [streakFrom_succ] at h1
      exact h1
    have hguard : ¬ 100 ≤ (scanStep lk now kvartal s).not_found_streak := by
      rw [scanStep_streak]
      omega
    simp only [scanLoop, if_pos hle, if_neg hguard]
    have hrec := ih { scanStep lk now kvartal s with
                        current_num := (scanStep lk now kvartal s).current_num + 1 }
      (by simp [scanStep_current]; omega)
      (by
        intro i hi
        simp only [scanStep_streak, scanStep_current]
        have h2 := hstreak (i + 1) (by omega)
        rw [streakFrom_succ] at h2
        exact h2)
    rw [hrec]
    simp only [scanStep_land, scanStep_found, scanStep_streak, scanStep_current]
    refine ScanState.ext ?_ ?_ ?_ ?_
    · simp [recsFrom_succ, List.append_assoc]
    · simp [recsFrom_succ, List.length_append]
      omega
    · simp [streakFrom_succ]
    · simp
      omega

/-- Every logged iteration's `saved` flag is exactly the periodic
checkpoint condition of line 199, evaluated on the state right after the
probe. -/
theorem scanLoop_saved (lk : String → FetchOutcome) (now kvartal : String) (endNum : Nat) :
    ∀ fuel s it, it ∈ (scanLoop lk now kvartal endNum fuel s).2 →
      (it.saved = true ↔
        (0 < it.after.found_count ∧
          (it.after.found_count % 10 = 0 ∨ it.after.current_num % 50 = 0))) := by
  intro fuel
  induction fuel with
  | zero => intro s it hmem; simp [scanLoop] at hmem
  | succ fuel ih =>
    intro s it hmem
    by_cases hle : s.current_num ≤ endNum
    · simp only [scanLoop, if_pos hle] at hmem
      by_cases hguard : 100 ≤ (scanStep lk now kvartal s).not_found_streak
      · simp only [if_pos hguard, List.mem_singleton] at hmem
        subst hmem
        simp
      · simp only [if_neg hguard, List.mem_cons] at hmem
        rcases hmem with h | h
        · subst h; simp
        · exact ih _ it h
    · simp [scanLoop, if_neg hle] at hmem

/-- Every logged iteration probes the identifier that is still
`current_num` in its recorded after-state. -/
theorem scanLoop_probed (lk : String → FetchOutcome) (now kvartal : String) (endNum : Nat) :
    ∀ fuel s it, it ∈ (scanLoop lk now kvartal endNum fuel s).2 →
      it.probed = it.after.current_num := by
  intro fuel
  induction fuel with
  | zero => intro s it hmem; simp [scanLoop] at hmem
  | succ fuel ih =>
    intro s it hmem
    by_cases hle : s.current_num ≤ endNum
    · simp only [scanLoop, if_pos hle] at hmem
      by_cases hguard : 100 ≤ (scanStep lk now kvartal s).not_found_streak
      · simp only [if_pos hguard, List.mem_singleton] at hmem
        subst hmem
        simp [scanStep_eq]
      · simp only [if_neg hguard, List.mem_cons] at hmem
        rcases hmem with h | h
        · subst h; simp [scanStep_eq]
        · exact ih _ it h
    · simp [scanLoop, if_neg hle] at hmem

/-- Early-stop closed form: starting from a state whose next `n + 1`
probes (fitting inside the range) all fail to fetch and whose streak is
`100 - (n + 1)`, the loop breaks out of iteration `current_num + n` with
streak exactly `100`, unchanged records, `current_num` not advanced past
the breaking identifier, and no probe beyond it. -/
theorem scanLoop_earlyStop (lk : String → FetchOutcome) (now kvartal : String) (endNum : Nat) :
    ∀ n s, s.not_found_streak + (n + 1) = 100 →
      (∀ j, s.current_num ≤ j → j ≤ s.current_num + n →
        fetch_parcel_data (lk (parcelId kvartal j)) = none) →
      s.current_num + n ≤ endNum →
      ∀ fuel, n + 1 ≤ fuel →
        (scanLoop lk now kvartal endNum fuel s).1 =
          { s with not_found_streak := 100, current_num := s.current_num + n } ∧
        ∀ it ∈ (scanLoop lk now kvartal endNum fuel s).2,
          it.probed ≤ s.current_num + n := by
  intro n
  induction n with
  | zero =>
    intro s hstreak hmiss hrange fuel hfuel
    obtain ⟨fuel', rfl⟩ : ∃ fuel', fuel = fuel' + 1 :=
      ⟨fuel - 1, by omega⟩
    have hle : s.current_num ≤ endNum := by omega
    have hnone : fetch_parcel_data (lk (parcelId kvartal s.current_num)) = none :=
      hmiss s.current_num (Nat.le_refl _) (by omega)
    have hstep : scanStep lk now kvartal s =
        { s with not_found_streak := s.not_found_streak + 1 } :=
      scanStep_miss lk now kvartal s hnone
    have hguard : 100 ≤ (scanStep lk now kvartal s).not_found_streak := by
      rw [hstep]; simp; omega
    constructor
    · simp only [scanLoop, if_pos hle, if_pos hguard]
      rw [hstep]
      refine ScanState.ext ?_ ?_ ?_ ?_ <;> simp <;> try omega
    · intro it hmem
      simp only [scanLoop, if_pos hle, if_pos hguard, List.mem_singleton] at hmem
      subst hmem
      simp
  | succ n ih =>
    intro s hstreak hmiss hrange fuel hfuel
    obtain ⟨fuel', rfl⟩ : ∃ fuel', fuel = fuel' + 1 :=
      ⟨fuel - 1, by omega⟩
    have hle : s.current_num ≤ endNum := by omega
    have hnone : fetch_parcel_data (lk (parcelId kvartal s.current_num)) = none :=
      hmiss s.current_num (Nat.le_refl _) (by omega)
    have hstep : scanStep lk now kvartal s =
        { s with not_found_streak := s.not_found_streak + 1 } :=
      scanStep_miss lk now kvartal s hnone
    have hguard : ¬ 100 ≤ (scanStep lk now kvartal s).not_found_streak := by
      rw [hstep]; simp; omega
    have hrec := ih { scanStep lk now kvartal s with
                        current_num := (scanStep lk now kvartal s).current_num + 1 }
      (by simp [hstep]; omega)
      (by
        intro j h1 h2
        apply hmiss j
        · simp [scanStep_current] at h1; omega
        · simp [scanStep_current] at h2 ⊢; omega)
      (by simp [scanStep_current]; omega) fuel' (by omega)
    constructor
    · simp only [scanLoop, if_pos hle, if_neg hguard]
      rw [hrec.1, hstep]
      refine ScanState.ext ?_ ?_ ?_ ?_ <;> simp <;> try omega
    · intro it hmem
      simp only [scanLoop, if_pos hle, if_neg hguard, List.mem_cons] at hmem
      rcases hmem with h | h
      · subst h; simp; try omega
      · have h2 := hrec.2 it h
        simp [scanStep_current] at h2
        omega

/-- Closed form of a whole `scan()` call when the streak never reaches
the early-stop ceiling over the remaining range. -/
theorem runScan_final (lk : String → FetchOutcome) (now kvartal : String)
    (startNum endNum : Nat) (s : ScanState) (hcur : s.current_num ≤ endNum + 1)
    (hstreak : ∀ i, i < endNum + 1 - s.current_num →
      streakFrom lk now kvartal s.not_found_streak s.current_num (i + 1) < 100) :
    (runScan lk now kvartal startNum endNum s).final =
      { land_parcels :=
          s.land_parcels ++
            recsFrom lk now kvartal s.current_num (endNum + 1 - s.current_num)
        found_count :=
          s.found_count +
            (recsFrom lk now kvartal s.current_num (endNum + 1 - s.current_num)).length
        not_found_streak :=
          streakFrom lk now kvartal s.not_found_streak s.current_num
            (endNum + 1 - s.current_num)
        current_num := endNum + 1 } := by
  simp only [runScan]
  rw [scanLoop_noStop lk now kvartal endNum (endNum + 1 - s.current_num) s (by omega) hstreak]
  refine ScanState.ext ?_ ?_ ?_ ?_ <;> simp <;> try omega

/-- A probe outcome used by the concrete test lookups: HTTP 404,
`fetch_parcel_data` returns `None`. -/
def missOutcome : FetchOutcome := FetchOutcome.ok 404 none

/-- A lookup stub on which every probe misses. -/
def allMiss : String → FetchOutcome := fun _ => missOutcome

/-- A payload holding exactly one feature categorised as a registered
land parcel, whose cadastral number is `cn`. -/
def registeredPayload (cn : String) : Payload :=
  { features := [ { categoryName := some "Земельные участки ЕГРН",
                    options := { cad_num := some cn } } ] }

/-- A lookup stub that returns a registered parcel exactly for the one
identifier `found` and misses everywhere else. -/
def stubLookup (found : String) : String → FetchOutcome :=
  fun pid =>
    if pid = found then FetchOutcome.ok 200 (some (registeredPayload found))
    else missOutcome

/-- Placeholder iteration entry used as the default of `List.getD`. -/
def defaultIter : Iter := { probed := 0, after := initState 0, saved := false }

/-- Scanner state at the checkpoint-write point of iteration `k` of an
uninterrupted scan from `startNum` (line 199 of the source): identifiers
`startNum … k` processed, `current_num` still `k` because the loop
advances it only after the checkpoint check. -/
def midScanState (lk : String → FetchOutcome) (now kvartal : String)
    (startNum k : Nat) : ScanState :=
  scanStep lk now kvartal
    (scanLoop lk now kvartal (k - 1) (k - startNum) (initState startNum)).1

/-- C2 counterexample: in the end-to-end example (block
`77:01:0001001`, range 1–5, only identifier 3 registered) the final
checkpoint written after the loop exhausts the range stores
`last_checked = 6` — `current_num` was already advanced past `end` —
so the claimed `last_checked == 5` is false. -/
theorem c2_counterexample :
    (runScan (stubLookup "77:01:0001001:3") "2024-01-01 00:00" "77:01:0001001" 1 5
      (initState 1)).finalCp.last_checked ≠ 5 := by decide

/-- C2 (amended): scanning block `77:01:0001001` over 1–5 with a lookup
registering only identifier 3 ends with exactly one record, with
cadastral number `77:01:0001001:3`, `found_count = 1` both in the state
and in the final checkpoint, and the final checkpoint's `last_checked`
equal to 6 (that is, `end + 1`), not 5. -/
theorem c2_end_to_end :
    ((runScan (stubLookup "77:01:0001001:3") "2024-01-01 00:00" "77:01:0001001" 1 5
        (initState 1)).final.land_parcels.map ParcelRecord.cad_num = ["77:01:0001001:3"]) ∧
    (runScan (stubLookup "77:01:0001001:3") "2024-01-01 00:00" "77:01:0001001" 1 5
        (initState 1)).final.land_parcels.length = 1 ∧
    (runScan (stubLookup "77:01:0001001:3") "2024-01-01 00:00" "77:01:0001001" 1 5
        (initState 1)).final.found_count = 1 ∧
    (runScan (stubLookup "77:01:0001001:3") "2024-01-01 00:00" "77:01:0001001" 1 5
        (initState 1)).finalCp.found_count = 1 ∧
    (runScan (stubLookup "77:01:0001001:3") "2024-01-01 00:00" "77:01:0001001" 1 5
        (initState 1)).finalCp.last_checked = 6 := by decide

/-- A payload whose only feature is not categorised as a registered land
parcel, so `parse_parcel_data` yields nothing. -/
def wrongCategoryPayload : Payload :=
  { features := [ { categoryName := some "x" } ] }

/-- A lookup stub that always answers 200 with `wrongCategoryPayload`. -/
def lkWrongCategory : String → FetchOutcome :=
  fun _ => FetchOutcome.ok 200 (some wrongCategoryPayload)

/-- C3 counterexample: when the lookup returns a payload containing no
feature categorised as a registered land parcel, the iteration leaves
`not_found_streak` unchanged (here 5) instead of incrementing it to 6,
so the claim that the streak is incremented on every not-found outcome
is false. -/
theorem c3_counterexample :
    (scanStep lkWrongCategory "t" "7"
        { land_parcels := [], found_count := 0, not_found_streak := 5,
          current_num := 1 }).not_found_streak = 5 ∧
    (scanStep lkWrongCategory "t" "7"
        { land_parcels := [], found_count := 0, not_found_streak := 5,
          current_num := 1 }).not_found_streak ≠ 5 + 1 := by decide

/-- C3 (amended): in every iteration `not_found_streak` is incremented
by 1 exactly when `fetch_parcel_data` yields nothing (request error,
404, non-200 status, malformed body), is reset to 0 exactly on a
successful find, and is left unchanged when a payload is returned that
contains no feature categorised as a registered land parcel. -/
theorem c3_streak_update (lk : String → FetchOutcome) (now kvartal : String) (s : ScanState) :
    (fetch_parcel_data (lk (parcelId kvartal s.current_num)) = none →
      (scanStep lk now kvartal s).not_found_streak = s.not_found_streak + 1) ∧
    (∀ d, fetch_parcel_data (lk (parcelId kvartal s.current_num)) = some d →
      ((parse_parcel_data now d (parcelId kvartal s.current_num)).isSome →
        (scanStep lk now kvartal s).not_found_streak = 0) ∧
      (parse_parcel_data now d (parcelId kvartal s.current_num) = none →
        (scanStep lk now kvartal s).not_found_streak = s.not_found_streak)) := by
  constructor
  · intro h
    rw [scanStep_streak]
    unfold stepStreak
    rw [h]
  · intro d hd
    constructor
    · intro hp
      obtain ⟨info, hinfo⟩ := Option.isSome_iff_exists.mp hp
      rw [scanStep_streak]
      unfold stepStreak
      simp only [hd, hinfo]
    · intro hp
      rw [scanStep_streak]
      unfold stepStreak
      simp only [hd, hp]

/-- C3 witness: applying the amended streak theorem at a concrete missed
probe. -/
theorem c3_streak_update_witness :
    (scanStep allMiss "t" "7" (initState 1)).not_found_streak =
      (initState 1).not_found_streak + 1 :=
  (c3_streak_update allMiss "t" "7" (initState 1)).1 rfl

/-- C7: saving any ScanState satisfying the data-model invariant
`found_count = length records` and loading the resulting checkpoint back
(into any scanner) recovers the records, the found count, and resumes at
the stored `last_checked + 1`, which is the saved state's
`current_num + 1`. -/
theorem c7_checkpoint_roundtrip (kvartal : String) (startNum endNum : Nat)
    (s sc : ScanState) (hinv : s.found_count = s.land_parcels.length) :
    (load_progress sc (save_progress kvartal startNum endNum s)).land_parcels =
      s.land_parcels ∧
    (load_progress sc (save_progress kvartal startNum endNum s)).found_count =
      s.found_count ∧
    (load_progress sc (save_progress kvartal startNum endNum s)).current_num =
      (save_progress kvartal startNum endNum s).last_checked + 1 ∧
    (load_progress sc (save_progress kvartal startNum endNum s)).current_num =
      s.current_num + 1 := by
  simp [load_progress, save_progress, hinv]

/-- C7 witness: round trip of a concrete fresh state through the
checkpoint store. -/
theorem c7_checkpoint_roundtrip_witness :
    (load_progress (initState 1) (save_progress "7" 1 9 (initState 3))).land_parcels =
      (initState 3).land_parcels ∧
    (load_progress (initState 1) (save_progress "7" 1 9 (initState 3))).found_count =
      (initState 3).found_count ∧
    (load_progress (initState 1) (save_progress "7" 1 9 (initState 3))).current_num =
      (save_progress "7" 1 9 (initState 3)).last_checked + 1 ∧
    (load_progress (initState 1) (save_progress "7" 1 9 (initState 3))).current_num =
      (initState 3).current_num + 1 :=
  c7_checkpoint_roundtrip "7" 1 9 (initState 3) (initState 1) rfl

/-- C8: every failing lookup outcome — a request exception, a status
that is neither 200 nor 404, or a 200 body that fails to parse — makes
`fetch_parcel_data` return `None`, so the iteration behaves exactly as
on a genuine 404 miss: the streak is incremented, no record is appended,
and `current_num` is untouched (the loop then continues normally; no
exception can escape, as `fetch_parcel_data` catches everything). -/
theorem c8_lookup_failure_as_miss (now kvartal : String) (s : ScanState)
    (lk lk404 : String → FetchOutcome) (o : FetchOutcome)
    (ho : lk (parcelId kvartal s.current_num) = o)
    (h404 : lk404 (parcelId kvartal s.current_num) = FetchOutcome.ok 404 none)
    (hfail : o = FetchOutcome.exn ∨
      (∃ c j, o = FetchOutcome.ok c j ∧ c ≠ 200 ∧ c ≠ 404) ∨
      o = FetchOutcome.ok 200 none) :
    fetch_parcel_data o = none ∧
    scanStep lk now kvartal s = scanStep lk404 now kvartal s ∧
    (scanStep lk now kvartal s).not_found_streak = s.not_found_streak + 1 ∧
    (scanStep lk now kvartal s).land_parcels = s.land_parcels ∧
    (scanStep lk now kvartal s).current_num = s.current_num := by
  have hfetch : fetch_parcel_data o = none := by
    rcases hfail with h | ⟨c, j, rfl, hc1, hc2⟩ | h
    · rw [h]; rfl
    · simp [fetch_parcel_data, hc1, hc2]
    · rw [h]; rfl
  have hmiss : scanStep lk now kvartal s =
      { s with not_found_streak := s.not_found_streak + 1 } :=
    scanStep_miss lk now kvartal s (by rw [ho]; exact hfetch)
  refine ⟨hfetch, ?_, ?_, ?_, ?_⟩
  · rw [hmiss, scanStep_miss lk404 now kvartal s (by rw [h404]; rfl)]
  · rw [hmiss]
  · rw [hmiss]
  · rw [hmiss]

/-- C8 witness: a request exception at a concrete state increments the
streak and leaves the records alone. -/
theorem c8_lookup_failure_as_miss_witness :
    (scanStep (fun _ => FetchOutcome.exn) "t" "7" (initState 1)).not_found_streak =
      (initState 1).not_found_streak + 1 ∧
    (scanStep (fun _ => FetchOutcome.exn) "t" "7" (initState 1)).land_parcels =
      (initState 1).land_parcels :=
  ⟨(c8_lookup_failure_as_miss "t" "7" (initState 1) (fun _ => FetchOutcome.exn) allMiss
      FetchOutcome.exn rfl rfl (Or.inl rfl)).2.2.1,
   (c8_lookup_failure_as_miss "t" "7" (initState 1) (fun _ => FetchOutcome.exn) allMiss
      FetchOutcome.exn rfl rfl (Or.inl rfl)).2.2.2.1⟩

/-- C9: whenever the records are empty at the end of the loop, `scan`
returns `None` — exactly the value the fatal-error path returns for any
aborted state — so a zero-find run is indistinguishable from an aborted
one by the return value. -/
theorem c9_empty_vs_fatal (lk : String → FetchOutcome) (now kvartal : String)
    (startNum endNum : Nat) (s : ScanState)
    (hempty : (runScan lk now kvartal startNum endNum s).final.land_parcels = []) :
    (runScan lk now kvartal startNum endNum s).retval = none ∧
    ∀ kv2 st2 en2 sA,
      (runScanFatal kv2 st2 en2 sA).1 =
        (runScan lk now kvartal startNum endNum s).retval := by
  simp only [runScan] at hempty ⊢
  refine ⟨?_, ?_⟩
  · simp [scanReturn, hempty]
  · intro kv2 st2 en2 sA
    simp [runScanFatal, scanReturn, hempty]

/-- C9 witness: a concrete zero-find run returns `None`, equal to the
fatal-path return value at an unrelated aborted state. -/
theorem c9_empty_vs_fatal_witness :
    (runScan allMiss "t" "7" 1 1 (initState 1)).retval = none ∧
    (runScanFatal "x" 1 9 (initState 5)).1 =
      (runScan allMiss "t" "7" 1 1 (initState 1)).retval :=
  ⟨(c9_empty_vs_fatal allMiss "t" "7" 1 1 (initState 1) (by decide)).1,
   (c9_empty_vs_fatal allMiss "t" "7" 1 1 (initState 1) (by decide)).2 "x" 1 9 (initState 5)⟩

/-- C10: `load_progress` derives `found_count` as the length of the
loaded records, so the invariant `found_count = length records` holds
right after any successful load, and the checkpoint's stored
`stats.found_count` field has no influence on the loaded state. -/
theorem c10_found_count_rederived (s : ScanState) (cp : Checkpoint) (n : Nat) :
    (load_progress s cp).found_count = (load_progress s cp).land_parcels.length ∧
    load_progress s { cp with found_count := n } = load_progress s cp := by
  simp [load_progress]

/-- C4 counterexample: scanning the one-identifier range 50..50 with a
lookup that always misses, iteration 50 satisfies `current % 50 == 0`
yet writes no periodic checkpoint, because the code additionally
requires `found_count > 0` — so the claimed trigger condition
`(found % 10 == 0 and found > 0) or current % 50 == 0` is not the one
the code implements. -/
theorem c4_counterexample :
    ((runScan allMiss "t" "7" 50 50 (initState 50)).iters.map Iter.saved = [false]) ∧
    ((runScan allMiss "t" "7" 50 50 (initState 50)).iters.map Iter.probed = [50]) ∧
    50 % 50 = 0 := by decide

/-- C4 (amended): a periodic checkpoint write occurs at the end of an
iteration if and only if
`found_count > 0 and (found_count % 10 == 0 or current_num % 50 == 0)`
holds for the state right after the probe, and every scan additionally
performs one unconditional final checkpoint write of the final state. -/
theorem c4_checkpoint_trigger (lk : String → FetchOutcome) (now kvartal : String)
    (startNum endNum : Nat) (s : ScanState) :
    (∀ it ∈ (runScan lk now kvartal startNum endNum s).iters,
      (it.saved = true ↔
        (0 < it.after.found_count ∧
          (it.after.found_count % 10 = 0 ∨ it.after.current_num % 50 = 0)))) ∧
    (runScan lk now kvartal startNum endNum s).finalCp =
      save_progress kvartal startNum endNum
        (runScan lk now kvartal startNum endNum s).final := by
  constructor
  · intro it hmem
    simp only [runScan] at hmem
    exact scanLoop_saved lk now kvartal endNum (endNum + 1 - s.current_num) s it hmem
  · rfl

/-- C4 witness: applying the amended trigger theorem to the single
iteration of a concrete all-miss scan. -/
theorem c4_checkpoint_trigger_witness :
    (((runScan allMiss "t" "7" 1 1 (initState 1)).iters.getD 0 defaultIter).saved = true ↔
      (0 < ((runScan allMiss "t" "7" 1 1 (initState 1)).iters.getD 0
              defaultIter).after.found_count ∧
        (((runScan allMiss "t" "7" 1 1 (initState 1)).iters.getD 0
              defaultIter).after.found_count % 10 = 0 ∨
          ((runScan allMiss "t" "7" 1 1 (initState 1)).iters.getD 0
              defaultIter).after.current_num % 50 = 0))) :=
  (c4_checkpoint_trigger allMiss "t" "7" 1 1 (initState 1)).1
    ((runScan allMiss "t" "7" 1 1 (initState 1)).iters.getD 0 defaultIter) (by decide)

/-- C5: after every iteration whose post-probe state has
`found_count > 0` and `found_count` a multiple of 10 or `current_num` a
multiple of 50, the periodic `save_progress` fires (persisting the
current state to the checkpoint store). -/
theorem c5_checkpoint_sufficiency (lk : String → FetchOutcome) (now kvartal : String)
    (startNum endNum : Nat) (s : ScanState) :
    ∀ it ∈ (runScan lk now kvartal startNum endNum s).iters,
      0 < it.after.found_count →
      (it.after.found_count % 10 = 0 ∨ it.after.current_num % 50 = 0) →
      it.saved = true := by
  intro it hmem h1 h2
  simp only [runScan] at hmem
  exact (scanLoop_saved lk now kvartal endNum (endNum + 1 - s.current_num) s it hmem).mpr
    ⟨h1, h2⟩

/-- C5 witness: a concrete scan that finds a parcel at identifier 50
(so `found_count = 1 > 0` and `current_num % 50 == 0`) saves a periodic
checkpoint in that iteration. -/
theorem c5_checkpoint_sufficiency_witness :
    ((runScan (stubLookup "7:50") "t" "7" 50 50 (initState 50)).iters.getD 0
        defaultIter).saved = true :=
  c5_checkpoint_sufficiency (stubLookup "7:50") "t" "7" 50 50 (initState 50)
    ((runScan (stubLookup "7:50") "t" "7" 50 50 (initState 50)).iters.getD 0 defaultIter)
    (by decide) (by decide) (by decide)

/-- C6: a scan that reaches identifier `k` with a zero streak and whose
lookups fail to fetch for all of `k … k + 99` (with `k + 99` inside the
range) terminates by early stop: the final streak is exactly 100, the
final `current_num` — and the final checkpoint's `last_checked` — is
`k + 99` (the loop breaks before the increment), no records are added,
and no identifier beyond `k + 99` is ever probed. -/
theorem c6_early_stop (lk : String → FetchOutcome) (now kvartal : String)
    (startNum endNum k : Nat) (s : ScanState)
    (hc : s.current_num = k) (hs : s.not_found_streak = 0)
    (hm : ∀ j, k ≤ j → j ≤ k + 99 →
      fetch_parcel_data (lk (parcelId kvartal j)) = none)
    (he : k + 99 ≤ endNum) :
    (runScan lk now kvartal startNum endNum s).final.not_found_streak = 100 ∧
    (runScan lk now kvartal startNum endNum s).final.current_num = k + 99 ∧
    (runScan lk now kvartal startNum endNum s).final.land_parcels = s.land_parcels ∧
    (runScan lk now kvartal startNum endNum s).finalCp.last_checked = k + 99 ∧
    ∀ it ∈ (runScan lk now kvartal startNum endNum s).iters, it.probed ≤ k + 99 := by
  subst hc
  obtain ⟨h1, h2⟩ := scanLoop_earlyStop lk now kvartal endNum 99 s (by omega)
    (by intro j hj1 hj2; exact hm j hj1 hj2)
    (by omega) (endNum + 1 - s.current_num) (by omega)
  refine ⟨?_, ?_, ?_, ?_, ?_⟩
  · simp only [runScan]
    rw [h1]
  · simp only [runScan]
    rw [h1]
  · simp only [runScan]
    rw [h1]
  · simp only [runScan, save_progress]
    rw [h1]
  · intro it hmem
    simp only [runScan] at hmem
    exact h2 it hmem

/-- C6 witness: an all-miss scan over 1..100 stops with streak 100. -/
theorem c6_early_stop_witness :
    (runScan allMiss "t" "7" 1 100 (initState 1)).final.not_found_streak = 100 :=
  (c6_early_stop allMiss "t" "7" 1 100 1 (initState 1) rfl rfl
    (fun j h1 h2 => rfl) (by omega)).1

/-- Lookup of the C1 counterexample: identifiers 1..149 miss, 150 is a
registered parcel. -/
def c1Lookup : String → FetchOutcome := stubLookup "7:150"

/-- C1 counterexample: over the range 1..150 with `c1Lookup`, the
uninterrupted scan early-stops after 100 straight misses (never reaching
identifier 150) and ends with no records, while resuming from the
checkpoint written after processing identifiers 1..50 (taken from the
run's own iteration log, `last_checked = 50`) restarts with a zero
streak, survives to identifier 150, and ends with one record — so
resuming is not observation-equivalent to the uninterrupted scan. -/
theorem c1_counterexample :
    (save_progress "7" 1 150
        (((runScan c1Lookup "t" "7" 1 150 (initState 1)).iters.getD 49
            defaultIter).after)).last_checked = 50 ∧
    (load_progress (initState 1)
        (save_progress "7" 1 150
          (((runScan c1Lookup "t" "7" 1 150 (initState 1)).iters.getD 49
              defaultIter).after))).current_num = 50 + 1 ∧
    (runScan c1Lookup "t" "7" 1 150
        (load_progress (initState 1)
          (save_progress "7" 1 150
            (((runScan c1Lookup "t" "7" 1 150 (initState 1)).iters.getD 49
                defaultIter).after)))).final.land_parcels ≠
      (runScan c1Lookup "t" "7" 1 150 (initState 1)).final.land_parcels := by
  refine ⟨by decide, by decide, by decide⟩

/-- C1 (amended): provided the uninterrupted scan of `[start, end]`
never reaches the early-stop ceiling (its streak stays below 100 after
every prefix of probes), loading the checkpoint written at the
checkpoint point of iteration `k` (identifiers `[start, k]` processed)
resumes at `k + 1` and the resumed scan ends with exactly the records of
the uninterrupted scan, in the same order.  The proviso is forced by
`c1_counterexample`: loading resets `not_found_streak` to 0, so a
resumed scan can outlive an early-stopping uninterrupted one. -/
theorem c1_resume_idempotent (lk : String → FetchOutcome) (now kvartal : String)
    (startNum endNum k : Nat)
    (hstart : 1 ≤ startNum) (hk1 : startNum ≤ k) (hk2 : k < endNum)
    (hNES : ∀ i, i < endNum + 1 - startNum →
      streakFrom lk now kvartal 0 startNum (i + 1) < 100) :
    (load_progress (initState startNum)
        (save_progress kvartal startNum endNum
          (midScanState lk now kvartal startNum k))).current_num = k + 1 ∧
    (runScan lk now kvartal startNum endNum
        (load_progress (initState startNum)
          (save_progress kvartal startNum endNum
            (midScanState lk now kvartal startNum k)))).final.land_parcels =
      (runScan lk now kvartal startNum endNum (initState startNum)).final.land_parcels := by
  obtain ⟨a, rfl⟩ : ∃ a, k = startNum + a := ⟨k - startNum, by omega⟩
  obtain ⟨b, rfl⟩ : ∃ b, endNum = startNum + a + 1 + b :=
    ⟨endNum - (startNum + a) - 1, by omega⟩
  have e1 : startNum + a - startNum = a := by omega
  have hpre : (scanLoop lk now kvartal (startNum + a - 1) (startNum + a - startNum)
      (initState startNum)).1 =
      { land_parcels := recsFrom lk now kvartal startNum a
        found_count := (recsFrom lk now kvartal startNum a).length
        not_found_streak := streakFrom lk now kvartal 0 startNum a
        current_num := startNum + a } := by
    rw [e1]
    rw [scanLoop_noStop lk now kvartal (startNum + a - 1) a (initState startNum)
      (by simp [initState]; omega)
      (by
        intro i hi
        simp only [initState]
        exact hNES i (by omega))]
    simp [initState]
  have hmid : midScanState lk now kvartal startNum (startNum + a) =
      { land_parcels := recsFrom lk now kvartal startNum a ++
          (probeRec lk now kvartal (startNum + a)).toList
        found_count := (recsFrom lk now kvartal startNum a).length +
          (probeRec lk now kvartal (startNum + a)).toList.length
        not_found_streak := stepStreak lk now kvartal (startNum + a)
          (streakFrom lk now kvartal 0 startNum a)
        current_num := startNum + a } := by
    unfold midScanState
    rw [hpre, scanStep_eq]
  have hload : load_progress (initState startNum)
      (save_progress kvartal startNum (startNum + a + 1 + b)
        (midScanState lk now kvartal startNum (startNum + a))) =
      { land_parcels := recsFrom lk now kvartal startNum a ++
          (probeRec lk now kvartal (startNum + a)).toList
        found_count := (recsFrom lk now kvartal startNum a ++
          (probeRec lk now kvartal (startNum + a)).toList).length
        not_found_streak := 0
        current_num := startNum + a + 1 } := by
    rw [hmid]
    simp [load_progress, save_progress, initState]
  refine ⟨by rw [hload], ?_⟩
  have hresumed := runScan_final lk now kvartal startNum (startNum + a + 1 + b)
      { land_parcels := recsFrom lk now kvartal startNum a ++
          (probeRec lk now kvartal (startNum + a)).toList
        found_count := (recsFrom lk now kvartal startNum a ++
          (probeRec lk now kvartal (startNum + a)).toList).length
        not_found_streak := 0
        current_num := startNum + a + 1 }
      (by simp; omega)
      (by
        intro i hi
        show streakFrom lk now kvartal 0 (startNum + a + 1) (i + 1) < 100
        have hcomp := streakFrom_add lk now kvartal (a + 1) 0 startNum (i + 1)
        have hmono := streakFrom_mono lk now kvartal (i + 1) (startNum + (a + 1))
          (Nat.zero_le (streakFrom lk now kvartal 0 startNum (a + 1)))
        have hN := hNES (a + 1 + i) (by simp at hi; omega)
        have e2 : a + 1 + i + 1 = (a + 1) + (i + 1) := by omega
        rw [e2, hcomp] at hN
        have hlt := lt_of_le_of_lt hmono hN
        have e3 : startNum + (a + 1) = startNum + a + 1 := by omega
        rw [e3] at hlt
        exact hlt)
  have e4 : startNum + a + 1 + b + 1 - (startNum + a + 1) = b + 1 := by omega
  have huninterrupted := runScan_final lk now kvartal startNum (startNum + a + 1 + b)
      (initState startNum)
      (by simp [initState]; omega)
      (by
        intro i hi
        show streakFrom lk now kvartal 0 startNum (i + 1) < 100
        exact hNES i (by simp [initState] at hi; omega))
  have e5 : startNum + a + 1 + b + 1 - startNum = a + (b + 1 + 1) := by omega
  rw [hload, hresumed, huninterrupted]
  simp only [initState, e4, e5]
  rw [recsFrom_add lk now kvartal a startNum (b + 1 + 1),
    recsFrom_succ lk now kvartal (startNum + a) (b + 1)]
  simp [List.append_assoc]

/-- C1 witness: applying the amended resume theorem to a concrete
all-miss range (1..3, resuming after identifier 2). -/
theorem c1_resume_idempotent_witness :
    (load_progress (initState 1)
        (save_progress "7" 1 3 (midScanState allMiss "t" "7" 1 2))).current_num = 2 + 1 ∧
    (runScan allMiss "t" "7" 1 3
        (load_progress (initState 1)
          (save_progress "7" 1 3 (midScanState allMiss "t" "7" 1 2)))).final.land_parcels =
      (runScan allMiss "t" "7" 1 3 (initState 1)).final.land_parcels :=
  c1_resume_idempotent allMiss "t" "7" 1 3 2 (by omega) (by omega) (by omega) (by decide)

end Cadastr
